import Mathlib

/-!
Shallow embedding of `DataprocClusterManager`
(sdks/python/apache_beam/runners/interactive/dataproc/dataproc_cluster_manager.py).

The manager talks to two external collaborators: a cluster-control RPC client
(`create_cluster` / `delete_cluster` / `get_cluster`) and an object-store
filesystem (`_list` / `open` / `delete`).  Both are modelled by an environment
record `Env` of response oracles.  Every modelled operation returns, besides
its result, the list of externally visible actions (`Event`) it performed, so
that claims about "zero RPC calls" or "no object-store deletion" are
statements about that list.  Python exceptions are modelled by `PyErr`;
`raise e` of the provider exception is `PyErr.provider code`.  The unbounded
`while` poll loop is modelled with explicit fuel: an outer `none` result means
the run did not finish within the given fuel.

String operations are modelled over `List Char` with structurally recursive
functions mirroring Python semantics: `pySplit` is `str.split(sep)` for a
non-empty separator, `pyContains` is `sub in s`, `pyReplace` is
`re.sub(lit, repl, s)` for a literal pattern, and `stripApp` is
`re.sub(squote-or-dot-newline, empty, s)` from `parse_master_url_and_dashboard`.
-/

/-- Single-quote character, kept out of string literals. -/
def squote : Char := Char.ofNat 39

/-- Whether `sep` is a prefix of `s` (both as char lists). -/
def sepLeads : List Char → List Char → Bool
  | [], _ => true
  | _ :: _, [] => false
  | p :: ps, c :: cs => p = c && sepLeads ps cs

/-- Worker for `pySplit`: fuel-indexed left-to-right split on a non-empty
separator, Python `str.split` semantics. -/
def splitOnAux (sep : List Char) : Nat → List Char → List Char → List (List Char)
  | _, acc, [] => [acc.reverse]
  | 0, acc, s => [acc.reverse ++ s]
  | fuel + 1, acc, c :: cs =>
    if sepLeads sep (c :: cs) then
      acc.reverse :: splitOnAux sep fuel [] (List.drop (sep.length - 1) cs)
    else
      splitOnAux sep fuel (c :: acc) cs

/-- Python `s.split(sep)` for non-empty `sep`. -/
def pySplit (s sep : String) : List String :=
  (splitOnAux sep.data s.data.length [] s.data).map String.mk

/-- Python `sub in s` for non-empty `sub`. -/
def pyContains (s sub : String) : Bool :=
  (pySplit s sub).length != 1

/-- Worker for `pyReplace`: replace every occurrence of `pat`, left to right,
non-overlapping. -/
def replaceAux (pat repl : List Char) : Nat → List Char → List Char
  | _, [] => []
  | 0, s => s
  | fuel + 1, c :: cs =>
    if sepLeads pat (c :: cs) then
      repl ++ replaceAux pat repl fuel (List.drop (pat.length - 1) cs)
    else
      c :: replaceAux pat repl fuel cs

/-- Python `re.sub(pat, repl, s)` for a non-empty literal pattern `pat`. -/
def pyReplace (s pat repl : String) : String :=
  String.mk (replaceAux pat.data repl.data s.data.length s.data)

/-- Python `re.sub` with the alternation pattern "single quote, or any
non-newline character followed by a newline", replaced by the empty string:
the application-id cleanup regex in `parse_master_url_and_dashboard`. -/
def stripApp : List Char → List Char
  | [] => []
  | [c] => if c = squote then [] else [c]
  | c :: c2 :: rest2 =>
    if c = squote then stripApp (c2 :: rest2)
    else if c ≠ '\n' ∧ c2 = '\n' then stripApp rest2
    else c :: stripApp (c2 :: rest2)

/-- String-level wrapper of `stripApp`. -/
def reSubAppId (s : String) : String := String.mk (stripApp s.data)

/-- Python truthiness of an `Optional[str]`: `None` and the empty string are
falsy. -/
def truthyStr : Option String → Bool
  | none => false
  | some s => !s.data.isEmpty

/-- Constant `DATAPROC_STAGING_LOG_NAME` from the source. -/
def DATAPROC_STAGING_LOG_NAME : String := "dataproc-startup-script_output"

/-- The fields of a `dataproc_v1.Cluster` descriptor that the manager reads:
`status.state.name`, `config.config_bucket`, and
`config.endpoint_config.http_ports` at key "YARN ResourceManager". -/
structure ClusterDetails where
  statusStateName : String
  configBucket : String
  yarnEndpoint : String
deriving Repr, DecidableEq

/-- Response oracles of the two external collaborators.  `getClusterResults`
is indexed by the number of `get_cluster` RPCs already issued in the run, so
a polling loop can observe a changing status.  `listResult` gives the file
paths returned by `_fs._list` on a directory (the directory may be `None`,
matching the unresolved staging directory), and `fileLines` gives the decoded
lines of `_fs.open(path).readlines()`. -/
structure Env where
  createResult : Except Nat Unit
  deleteResult : Except Nat Unit
  getClusterResults : Nat → Except Nat ClusterDetails
  listResult : Option String → List String
  fileLines : String → List String

/-- Externally visible actions of a run. -/
inductive Event where
  | createRPC
  | deleteRPC
  | getClusterRPC
  | listRPC (dir : Option String)
  | openRPC (path : String)
  | deleteObjects (paths : List String)
  | sleep (secs : Nat)
  | logInfo
  | logError
deriving Repr, DecidableEq

/-- Python exceptions as the manager distinguishes them: `ValueError` with a
message, a provider error carrying a status code (re-raised verbatim), and
`IndexError` from list indexing in `parse_master_url_and_dashboard`. -/
inductive PyErr where
  | valueError (msg : String)
  | provider (code : Nat)
  | indexError
deriving Repr, DecidableEq

deriving instance DecidableEq for Except

/-- The `ClusterMetadata` record: immutable identity plus the two fields
written once after successful provisioning. -/
structure ClusterMetadata where
  project_id : String
  region : String
  cluster_name : String
  master_url : Option String
  dashboard : Option String
deriving Repr, DecidableEq

/-- Mutable state of a `DataprocClusterManager` instance:
`self.cluster_metadata`, `self._staging_directory`, and the count `gc` of
`get_cluster` RPCs issued so far (the index into `Env.getClusterResults`).
The `pipelines` set is never touched by any modelled method and is omitted. -/
structure MState where
  cluster_metadata : ClusterMetadata
  staging_directory : Option String
  gc : Nat
deriving Repr, DecidableEq

/-- Model of `get_cluster_details` (source lines 176-204): one `get_cluster`
RPC; code 403 becomes a `ValueError` naming the project, 404 a `ValueError`
naming the cluster, anything else is logged and re-raised. -/
def get_cluster_details (env : Env) (meta : ClusterMetadata) (gc : Nat) :
    Except PyErr ClusterDetails × Nat × List Event :=
  match env.getClusterResults gc with
  | .ok d => (.ok d, gc + 1, [.getClusterRPC])
  | .error code =>
    if code = 403 then
      (.error (.valueError ("You cannot view clusters in project: " ++ meta.project_id)),
       gc + 1, [.getClusterRPC, .logError])
    else if code = 404 then
      (.error (.valueError ("Cluster was not found: " ++ meta.cluster_name)),
       gc + 1, [.getClusterRPC, .logError])
    else
      (.error (.provider code), gc + 1, [.getClusterRPC, .logError])

/-- Model of `wait_for_cluster_to_provision` (source lines 206-208): fetch
cluster details and sleep 15 while the status is CREATING.  The extra `fuel`
argument bounds the number of iterations modelled; a `none` result means the
loop was still running when the fuel ran out. -/
def wait_for_cluster_to_provision (env : Env) (meta : ClusterMetadata) :
    Nat → Nat → Option (Except PyErr Unit) × Nat × List Event
  | gc, 0 => (none, gc, [])
  | gc, fuel + 1 =>
    match get_cluster_details env meta gc with
    | (.error e, gc2, evs) => (some (.error e), gc2, evs)
    | (.ok d, gc2, evs) =>
      if d.statusStateName = "CREATING" then
        match wait_for_cluster_to_provision env meta gc2 fuel with
        | (r, gc3, evs2) => (r, gc3, evs ++ .sleep 15 :: evs2)
      else (some (.ok ()), gc2, evs)

/-- First listed path containing the cluster name as a substring, returned as
its prefix before the first occurrence of the name, per the loop in
`get_staging_location` (source lines 217-222). -/
def stagingMatch (name : String) : List String → Option String
  | [] => none
  | p :: rest =>
    if pyContains p name then some ((pySplit p name).headD "")
    else stagingMatch name rest

/-- Model of `get_staging_location` (source lines 210-227): wait for
provisioning, fetch details, list the metainfo prefix of the config bucket,
and return the first match (or Python's implicit `None`).  Any exception is
logged and re-raised unchanged. -/
def get_staging_location (env : Env) (meta : ClusterMetadata) (gc fuel : Nat) :
    Option (Except PyErr (Option String)) × Nat × List Event :=
  match wait_for_cluster_to_provision env meta gc fuel with
  | (none, gc2, evs) => (none, gc2, evs)
  | (some (.error e), gc2, evs) => (some (.error e), gc2, evs ++ [.logError])
  | (some (.ok _), gc2, evs) =>
    match get_cluster_details env meta gc2 with
    | (.error e, gc3, evs2) => (some (.error e), gc3, evs ++ evs2 ++ [.logError])
    | (.ok d, gc3, evs2) =>
      let gcs_path := "gs://" ++ d.configBucket ++ "/google-cloud-dataproc-metainfo/"
      (some (.ok (stagingMatch meta.cluster_name (env.listResult (some gcs_path)))),
       gc3, evs ++ evs2 ++ [.listRPC (some gcs_path)])

/-- Pure part of `parse_master_url_and_dashboard` (source lines 246-248):
`line.split(marker)[1].split(separator)` giving the master URL and the raw
application-id segment; a missing index is Python's `IndexError`. -/
def parseSegments (line : String) : Except PyErr (String × String) :=
  match (pySplit line "Found Web Interface ").get? 1 with
  | none => .error .indexError
  | some rest =>
    match (pySplit rest " of application ").get? 1 with
    | none => .error .indexError
    | some app => .ok ((pySplit rest " of application ").headD "", app)

/-- Model of `parse_master_url_and_dashboard` (source lines 229-253).  Note
that the source first calls `self.get_cluster_details()` (an RPC) to read the
YARN ResourceManager endpoint, then parses the line and rewrites the
endpoint's "/yarn/" segment into a reverse-proxy path embedding the
application id. -/
def parse_master_url_and_dashboard (env : Env) (meta : ClusterMetadata)
    (gc : Nat) (line : String) :
    Except PyErr (String × String) × Nat × List Event :=
  match get_cluster_details env meta gc with
  | (.error e, gc2, evs) => (.error e, gc2, evs)
  | (.ok d, gc2, evs) =>
    match parseSegments line with
    | .error e => (.error e, gc2, evs)
    | .ok seg =>
      let application_id := reSubAppId seg.2
      let dashboard := pyReplace d.yarnEndpoint "/yarn/"
          ("/gateway/default/yarn/proxy/" ++ application_id ++ "/")
      (.ok (seg.1, dashboard), gc2, evs)

/-- First line of a file containing the marker "Found Web Interface"
(the inner loop of `get_master_url_and_dashboard`). -/
def firstMarkerLine : List String → Option String
  | [] => none
  | l :: rest =>
    if pyContains l "Found Web Interface" then some l else firstMarkerLine rest

/-- The startup logs: listed paths containing `DATAPROC_STAGING_LOG_NAME`
(source lines 257-260). -/
def startupLogs (env : Env) (staging : Option String) : List String :=
  (env.listResult staging).filter (fun p => pyContains p DATAPROC_STAGING_LOG_NAME)

/-- Coercion of the parsed `(str, str)` pair into the
`(Optional[str], Optional[str])` return type of `get_master_url_and_dashboard`. -/
def liftEndpoint : Except PyErr (String × String) →
    Except PyErr (Option String × Option String)
  | .ok p => .ok (some p.1, some p.2)
  | .error e => .error e

/-- Outer loop of `get_master_url_and_dashboard` (source lines 262-268): open
each startup log in turn; on the first log with a marker line, return the
parse of that line; otherwise fall through to `(None, None)`. -/
def scanLogs (env : Env) (meta : ClusterMetadata) (gc : Nat) :
    List String → Except PyErr (Option String × Option String) × Nat × List Event
  | [] => (.ok (none, none), gc, [])
  | log :: rest =>
    match firstMarkerLine (env.fileLines log) with
    | some line =>
      match parse_master_url_and_dashboard env meta gc line with
      | (r, gc2, evs) => (liftEndpoint r, gc2, .openRPC log :: evs)
    | none =>
      match scanLogs env meta gc rest with
      | (r, gc2, evs) => (r, gc2, .openRPC log :: evs)

/-- Model of `get_master_url_and_dashboard` (source lines 255-268). -/
def get_master_url_and_dashboard (env : Env) (meta : ClusterMetadata)
    (staging : Option String) (gc : Nat) :
    Except PyErr (Option String × Option String) × Nat × List Event :=
  match scanLogs env meta gc (startupLogs env staging) with
  | (r, gc2, evs) => (r, gc2, .listRPC staging :: evs)

/-- Model of `cleanup_staging_files` (source lines 270-275): when the staging
directory is truthy, list it and delete everything listed. -/
def cleanup_staging_files (env : Env) (staging : Option String) : List Event :=
  match staging with
  | none => []
  | some dir =>
    if dir.data.isEmpty then []
    else [.listRPC (some dir), .deleteObjects (env.listResult (some dir))]

/-- Model of `cleanup` (source lines 145-174): one delete-cluster RPC, then
staging-file deletion; code 403 becomes a `ValueError` naming the project,
404 a `ValueError` naming the cluster, anything else is logged and re-raised. -/
def cleanup (env : Env) (st : MState) : Except PyErr Unit × List Event :=
  match env.deleteResult with
  | .ok _ => (.ok (), .deleteRPC :: cleanup_staging_files env st.staging_directory)
  | .error code =>
    if code = 403 then
      (.error (.valueError
        ("You cannot delete a cluster in project: " ++ st.cluster_metadata.project_id)),
       [.deleteRPC, .logError])
    else if code = 404 then
      (.error (.valueError
        ("Cluster was not found: " ++ st.cluster_metadata.cluster_name)),
       [.deleteRPC, .logError])
    else
      (.error (.provider code), [.deleteRPC, .logError])

/-- Model of `create_cluster` (source lines 64-112).  Short-circuit on a
truthy `master_url`; otherwise one create RPC with the 409/403/501 triage;
on RPC success, resolve the staging directory and the endpoint pair and write
them into the state. -/
def create_cluster (env : Env) (st : MState) (fuel : Nat) :
    Option (Except PyErr Unit) × MState × List Event :=
  if truthyStr st.cluster_metadata.master_url then
    (some (.ok ()), st, [])
  else
    match env.createResult with
    | .error code =>
      if code = 409 then (some (.ok ()), st, [.createRPC, .logInfo])
      else if code = 403 then
        (some (.error (.valueError
          ("You cannot create a cluster in project: " ++ st.cluster_metadata.project_id))),
         st, [.createRPC, .logError])
      else if code = 501 then
        (some (.error (.valueError
          ("Region " ++ st.cluster_metadata.region ++ " does not exist!"))),
         st, [.createRPC, .logError])
      else
        (some (.error (.provider code)), st, [.createRPC, .logError])
    | .ok _ =>
      match get_staging_location env st.cluster_metadata st.gc fuel with
      | (none, gc2, evs) =>
        (none, ⟨st.cluster_metadata, st.staging_directory, gc2⟩,
         .createRPC :: .logInfo :: evs)
      | (some (.error e), gc2, evs) =>
        (some (.error e), ⟨st.cluster_metadata, st.staging_directory, gc2⟩,
         .createRPC :: .logInfo :: evs)
      | (some (.ok staging), gc2, evs) =>
        match get_master_url_and_dashboard env st.cluster_metadata staging gc2 with
        | (.error e, gc3, evs2) =>
          (some (.error e), ⟨st.cluster_metadata, staging, gc3⟩,
           .createRPC :: .logInfo :: (evs ++ evs2))
        | (.ok mu_db, gc3, evs2) =>
          (some (.ok ()),
           ⟨⟨st.cluster_metadata.project_id, st.cluster_metadata.region,
             st.cluster_metadata.cluster_name, mu_db.1, mu_db.2⟩, staging, gc3⟩,
           .createRPC :: .logInfo :: (evs ++ evs2))

/-! Concrete fixtures used by witnesses and counterexamples. -/

/-- Example metadata record with no resolved endpoint. -/
def meta0 : ClusterMetadata := ⟨"proj-a", "region-b", "cluster-c", none, none⟩

/-- Manager state freshly constructed from `meta0`. -/
def st0 : MState := ⟨meta0, none, 0⟩

/-- Metadata record whose `master_url` is already set. -/
def metaSet : ClusterMetadata := ⟨"proj-a", "region-b", "cluster-c", some "host:1", some "dash"⟩

/-- Manager state whose metadata already carries a master URL. -/
def stSet : MState := ⟨metaSet, none, 0⟩

/-- Environment whose create RPC fails with code 409. -/
def envC409 : Env := ⟨.error 409, .ok (), fun _ => .error 1, fun _ => [], fun _ => []⟩

/-- Environment whose create RPC fails with code 403. -/
def envC403 : Env := ⟨.error 403, .ok (), fun _ => .error 1, fun _ => [], fun _ => []⟩

/-- Environment whose create RPC fails with code 501. -/
def envC501 : Env := ⟨.error 501, .ok (), fun _ => .error 1, fun _ => [], fun _ => []⟩

/-- Environment whose create RPC fails with code 500. -/
def envC500 : Env := ⟨.error 500, .ok (), fun _ => .error 1, fun _ => [], fun _ => []⟩

/-- Environment whose delete RPC fails with code 500. -/
def envD500 : Env := ⟨.ok (), .error 500, fun _ => .error 1, fun _ => [], fun _ => []⟩

/-- Environment where every RPC succeeds and the object store is empty. -/
def envQuiet : Env := ⟨.ok (), .ok (), fun _ => .ok ⟨"RUNNING", "b", "y"⟩, fun _ => [], fun _ => []⟩

/-- The example startup-log line of the spec, built without literal quote
characters: `... Found Web Interface host:50000 of application
(squote)application_123_0001(squote).(newline)`. -/
def exLine : String :=
  "... Found Web Interface host:50000 of application " ++ String.mk [squote] ++
    "application_123_0001" ++ String.mk [squote] ++ ".\n"

/-- Environment whose cluster descriptor carries YARN endpoint a. -/
def envYa : Env :=
  ⟨.ok (), .ok (), fun _ => .ok ⟨"RUNNING", "b", "http://host-a:8088/yarn/"⟩,
   fun _ => [], fun _ => []⟩

/-- Environment whose cluster descriptor carries YARN endpoint b. -/
def envYb : Env :=
  ⟨.ok (), .ok (), fun _ => .ok ⟨"RUNNING", "b", "http://host-b:8088/yarn/"⟩,
   fun _ => [], fun _ => []⟩

/-- Environment with the same YARN endpoint as `envYa` but a different
bucket, used to show the rest of the descriptor is irrelevant. -/
def envYa2 : Env :=
  ⟨.ok (), .ok (), fun _ => .ok ⟨"CREATING", "b2", "http://host-a:8088/yarn/"⟩,
   fun _ => [], fun _ => []⟩

/-- Specification-level description of the search in
`get_master_url_and_dashboard`: the first marker line of the first startup
log that has one. -/
def firstLogWithMarker (env : Env) : List String → Option String
  | [] => none
  | log :: rest =>
    match firstMarkerLine (env.fileLines log) with
    | some line => some line
    | none => firstLogWithMarker env rest

/-- Events of a terminating poll loop that saw the CREATING status k times:
k rounds of fetch-and-sleep followed by the final fetch. -/
def pollEvents : Nat → List Event
  | 0 => [.getClusterRPC]
  | k + 1 => .getClusterRPC :: .sleep 15 :: pollEvents k

/-- Cluster descriptor still in the CREATING state. -/
def dCreating : ClusterDetails := ⟨"CREATING", "b", "y"⟩

/-- Cluster descriptor in the RUNNING state. -/
def dRunning : ClusterDetails := ⟨"RUNNING", "b", "y"⟩

/-- Environment whose cluster reports CREATING on the first fetch and RUNNING
afterwards. -/
def envPoll : Env :=
  ⟨.ok (), .ok (), fun n => if n = 0 then .ok dCreating else .ok dRunning,
   fun _ => [], fun _ => []⟩

/-- Cluster descriptor used by the C9 witness environment. -/
def dRun2 : ClusterDetails := ⟨"RUNNING", "bkt", "http://h/yarn/"⟩

/-- Staging prefix the C9 witness run resolves. -/
def stagingPrefix : String := "gs://bkt/google-cloud-dataproc-metainfo/s1/"

/-- Startup-log path in the C9 witness object store. -/
def logPath : String :=
  "gs://bkt/google-cloud-dataproc-metainfo/s1/cluster-c/m/dataproc-startup-script_output"

/-- Environment where creation succeeds, the cluster is RUNNING, the staging
directory resolves, and the only startup log contains no marker line. -/
def envNoMark : Env :=
  ⟨.ok (), .ok (), fun _ => .ok dRun2,
   fun dir =>
     if dir = some "gs://bkt/google-cloud-dataproc-metainfo/" then [logPath]
     else if dir = some stagingPrefix then [logPath]
     else [],
   fun _ => ["no marker here\n"]⟩

/-- Manager state after the C9 witness run. -/
def stNoMark : MState :=
  ⟨⟨"proj-a", "region-b", "cluster-c", none, none⟩, some stagingPrefix, 2⟩

/-- Event trace of the C9 witness run. -/
def evsNoMark : List Event :=
  [.createRPC, .logInfo, .getClusterRPC, .getClusterRPC,
   .listRPC (some "gs://bkt/google-cloud-dataproc-metainfo/"),
   .listRPC (some stagingPrefix), .openRPC logPath]

/-- C1: during `create_cluster`, a create-RPC error with code 409 is swallowed
(the call completes without raising and without touching any state), code 403
raises a `ValueError` whose message names the project id, and code 501 raises
a `ValueError` whose message names the region; in all three cases
`cluster_metadata` (indeed the whole manager state) is unchanged and the only
external actions are the one create RPC and a log entry. -/
theorem create_cluster_error_triage (env : Env) (st : MState) (fuel : Nat)
    (hmu : truthyStr st.cluster_metadata.master_url = false) :
    (env.createResult = .error 409 →
      create_cluster env st fuel = (some (.ok ()), st, [.createRPC, .logInfo])) ∧
    (env.createResult = .error 403 →
      create_cluster env st fuel =
        (some (.error (.valueError ("You cannot create a cluster in project: " ++
          st.cluster_metadata.project_id))), st, [.createRPC, .logError])) ∧
    (env.createResult = .error 501 →
      create_cluster env st fuel =
        (some (.error (.valueError ("Region " ++ st.cluster_metadata.region ++
          " does not exist!"))), st, [.createRPC, .logError])) := by
  refine ⟨fun h => ?_, fun h => ?_, fun h => ?_⟩ <;> simp [create_cluster, hmu, h]

/-- C1 witness: the three triage branches evaluated on concrete environments. -/
theorem create_cluster_error_triage_witness :
    create_cluster envC409 st0 0 = (some (.ok ()), st0, [.createRPC, .logInfo]) ∧
    create_cluster envC403 st0 0 =
      (some (.error (.valueError ("You cannot create a cluster in project: " ++
        st0.cluster_metadata.project_id))), st0, [.createRPC, .logError]) ∧
    create_cluster envC501 st0 0 =
      (some (.error (.valueError ("Region " ++ st0.cluster_metadata.region ++
        " does not exist!"))), st0, [.createRPC, .logError]) :=
  ⟨(create_cluster_error_triage envC409 st0 0 (by decide)).1 rfl,
   (create_cluster_error_triage envC403 st0 0 (by decide)).2.1 rfl,
   (create_cluster_error_triage envC501 st0 0 (by decide)).2.2 rfl⟩

/-- C2: when `cluster_metadata.master_url` is already truthy (non-None and
non-empty), `create_cluster` returns immediately: the result is success, the
state is untouched, and the event trace is empty (zero RPC calls, zero
object-store accesses). -/
theorem create_cluster_short_circuit (env : Env) (st : MState) (fuel : Nat)
    (h : truthyStr st.cluster_metadata.master_url = true) :
    create_cluster env st fuel = (some (.ok ()), st, []) := by
  simp [create_cluster, h]

/-- C2 witness: the short-circuit evaluated on a state with a set master URL. -/
theorem create_cluster_short_circuit_witness :
    create_cluster envC500 stSet 3 = (some (.ok ()), stSet, []) :=
  create_cluster_short_circuit envC500 stSet 3 (by decide)

/-- C6: a create-RPC error whose code is not 409, 403 or 501 is logged and
re-raised unchanged: the caller receives the provider error with the original
code, the state is untouched, and the only actions are the create RPC and the
error log. -/
theorem create_cluster_reraises_unknown (env : Env) (st : MState) (fuel : Nat)
    (code : Nat)
    (hmu : truthyStr st.cluster_metadata.master_url = false)
    (h : env.createResult = .error code)
    (h409 : code ≠ 409) (h403 : code ≠ 403) (h501 : code ≠ 501) :
    create_cluster env st fuel =
      (some (.error (.provider code)), st, [.createRPC, .logError]) := by
  simp [create_cluster, hmu, h, h409, h403, h501]

/-- C6 witness: an unknown code 500 is re-raised verbatim. -/
theorem create_cluster_reraises_unknown_witness :
    create_cluster envC500 st0 0 =
      (some (.error (.provider 500)), st0, [.createRPC, .logError]) :=
  create_cluster_reraises_unknown envC500 st0 0 500 (by decide) rfl
    (by decide) (by decide) (by decide)

/-- C8: `cleanup` with an unresolved staging directory (`None`) and a
successful delete RPC issues exactly one delete-cluster RPC and performs no
object-store listing or deletion. -/
theorem cleanup_without_staging_directory (env : Env) (st : MState)
    (hstag : st.staging_directory = none)
    (hok : env.deleteResult = .ok ()) :
    cleanup env st = (.ok (), [.deleteRPC]) := by
  simp [cleanup, hok, cleanup_staging_files, hstag]

/-- C8 witness: cleanup evaluated on a state with no staging directory. -/
theorem cleanup_without_staging_directory_witness :
    cleanup envQuiet st0 = (.ok (), [.deleteRPC]) :=
  cleanup_without_staging_directory envQuiet st0 rfl rfl

/-- C10: when the delete-cluster RPC raises, `cleanup` performs zero
object-store deletions: the whole event trace is the failed delete RPC plus
an error log, so in particular no `deleteObjects` (and no staging listing)
ever happens. -/
theorem cleanup_error_no_staging_deletion (env : Env) (st : MState) (code : Nat)
    (h : env.deleteResult = .error code) :
    (cleanup env st).2 = [.deleteRPC, .logError] ∧
    ∀ ps, Event.deleteObjects ps ∉ (cleanup env st).2 := by
  have hev : (cleanup env st).2 = [.deleteRPC, .logError] := by
    unfold cleanup
    rw [h]
    by_cases h403 : code = 403
    · simp [h403]
    · by_cases h404 : code = 404 <;> simp [h403, h404]
  exact ⟨hev, fun ps => by rw [hev]; simp⟩

/-- C10 witness: a failing delete RPC evaluated on a concrete state that has
a staging directory, showing it is still not deleted. -/
theorem cleanup_error_no_staging_deletion_witness :
    (cleanup envD500 ⟨meta0, some "gs://b/dir/", 0⟩).2 = [.deleteRPC, .logError] ∧
    Event.deleteObjects [] ∉ (cleanup envD500 ⟨meta0, some "gs://b/dir/", 0⟩).2 :=
  ⟨(cleanup_error_no_staging_deletion envD500 ⟨meta0, some "gs://b/dir/", 0⟩ 500 rfl).1,
   (cleanup_error_no_staging_deletion envD500 ⟨meta0, some "gs://b/dir/", 0⟩ 500 rfl).2 []⟩

/-- C4: on the spec's example line, `parse_master_url_and_dashboard` returns
master URL "host:50000" and, for any fetched descriptor, a dashboard equal to
the descriptor's YARN ResourceManager endpoint with each "/yarn/" segment
replaced by "/gateway/default/yarn/proxy/application_123_0001/". -/
theorem parse_master_url_and_dashboard_example (env : Env)
    (meta : ClusterMetadata) (gc : Nat) (d : ClusterDetails)
    (h : env.getClusterResults gc = .ok d) :
    parse_master_url_and_dashboard env meta gc exLine =
      (.ok ("host:50000",
        pyReplace d.yarnEndpoint "/yarn/"
          "/gateway/default/yarn/proxy/application_123_0001/"),
       gc + 1, [.getClusterRPC]) := by
  unfold parse_master_url_and_dashboard get_cluster_details
  rw [h]
  rfl

/-- C4 witness: the example evaluated on a concrete environment, with the
YARN endpoint "http://host-a:8088/yarn/" rewritten to the reverse-proxy URL. -/
theorem parse_master_url_and_dashboard_example_witness :
    parse_master_url_and_dashboard envYa meta0 0 exLine =
      (.ok ("host:50000",
        pyReplace "http://host-a:8088/yarn/" "/yarn/"
          "/gateway/default/yarn/proxy/application_123_0001/"),
       1, [.getClusterRPC]) :=
  parse_master_url_and_dashboard_example envYa meta0 0
    ⟨"RUNNING", "b", "http://host-a:8088/yarn/"⟩ rfl

/-- C3 counterexample: `parse_master_url_and_dashboard` is not pure string
parsing.  On the same input line, two runs against environments that differ
only in the remote cluster descriptor return different (master URL,
dashboard) results, and the run issues a (non-empty, one get-cluster) RPC
trace. -/
theorem parse_master_url_and_dashboard_not_pure :
    (parse_master_url_and_dashboard envYa meta0 0 exLine).1 ≠
      (parse_master_url_and_dashboard envYb meta0 0 exLine).1 ∧
    (parse_master_url_and_dashboard envYa meta0 0 exLine).2.2 ≠
      ([] : List Event) := by
  decide

/-- C3 (amended): `parse_master_url_and_dashboard` issues exactly one
get-cluster RPC and its result is a function of the input line and the
fetched descriptor's YARN endpoint alone: two runs on the same line whose
fetched descriptors agree on the YARN endpoint return the same result, for
any environments, metadata and call counters. -/
theorem parse_master_url_and_dashboard_determined_by_line_and_endpoint
    (env1 env2 : Env) (m1 m2 : ClusterMetadata) (g1 g2 : Nat) (line : String)
    (d1 d2 : ClusterDetails)
    (h1 : env1.getClusterResults g1 = .ok d1)
    (h2 : env2.getClusterResults g2 = .ok d2)
    (hy : d1.yarnEndpoint = d2.yarnEndpoint) :
    (parse_master_url_and_dashboard env1 m1 g1 line).1 =
      (parse_master_url_and_dashboard env2 m2 g2 line).1 ∧
    (parse_master_url_and_dashboard env1 m1 g1 line).2.2 = [.getClusterRPC] := by
  unfold parse_master_url_and_dashboard get_cluster_details
  rw [h1, h2]
  cases hp : parseSegments line <;> simp [hp, hy]

/-- C3 (amended) witness: two environments agreeing on the YARN endpoint but
differing elsewhere give the same parse result on the example line. -/
theorem parse_master_url_and_dashboard_determined_witness :
    (parse_master_url_and_dashboard envYa meta0 0 exLine).1 =
      (parse_master_url_and_dashboard envYa2 metaSet 7 exLine).1 ∧
    (parse_master_url_and_dashboard envYa meta0 0 exLine).2.2 =
      [.getClusterRPC] :=
  parse_master_url_and_dashboard_determined_by_line_and_endpoint
    envYa envYa2 meta0 metaSet 0 7 exLine
    ⟨"RUNNING", "b", "http://host-a:8088/yarn/"⟩
    ⟨"CREATING", "b2", "http://host-a:8088/yarn/"⟩ rfl rfl rfl

/-- Helper: the result component of `scanLogs` is the parse of the first
marker line over the logs, or `(none, none)` when no log has one. -/
theorem scanLogs_fst (env : Env) (meta : ClusterMetadata) (gc : Nat)
    (logs : List String) :
    (scanLogs env meta gc logs).1 =
      match firstLogWithMarker env logs with
      | none => .ok (none, none)
      | some line =>
        liftEndpoint (parse_master_url_and_dashboard env meta gc line).1 := by
  induction logs with
  | nil => rfl
  | cons log rest ih =>
    unfold scanLogs firstLogWithMarker
    cases hfm : firstMarkerLine (env.fileLines log) with
    | some line => simp
    | none => simpa using ih

/-- C5: `get_master_url_and_dashboard` returns the parse of the first line
containing "Found Web Interface" in the first startup-log file that has one;
when no listed startup log contains such a line it returns `(None, None)`. -/
theorem get_master_url_and_dashboard_first_marker (env : Env)
    (meta : ClusterMetadata) (staging : Option String) (gc : Nat) :
    (get_master_url_and_dashboard env meta staging gc).1 =
      match firstLogWithMarker env (startupLogs env staging) with
      | none => .ok (none, none)
      | some line =>
        liftEndpoint (parse_master_url_and_dashboard env meta gc line).1 := by
  unfold get_master_url_and_dashboard
  exact scanLogs_fst env meta gc (startupLogs env staging)

/-- C7: if the first k fetched statuses are CREATING and the fetch after them
reports a different status, then for any fuel above k the poll loop
terminates successfully, having issued exactly k+1 get-cluster RPCs
interleaved with k fixed sleeps of 15 units, and nothing else. -/
theorem wait_for_cluster_to_provision_terminates (env : Env)
    (meta : ClusterMetadata) (gc k fuel : Nat) (d : ClusterDetails)
    (hcreating : ∀ i, i < k → ∃ di, env.getClusterResults (gc + i) = .ok di ∧
        di.statusStateName = "CREATING")
    (hk : env.getClusterResults (gc + k) = .ok d)
    (hdone : d.statusStateName ≠ "CREATING")
    (hfuel : k < fuel) :
    wait_for_cluster_to_provision env meta gc fuel =
      (some (.ok ()), gc + k + 1, pollEvents k) := by
  induction k generalizing gc fuel with
  | zero =>
    obtain ⟨f, rfl⟩ : ∃ f, fuel = f + 1 := ⟨fuel - 1, by omega⟩
    unfold wait_for_cluster_to_provision get_cluster_details
    rw [show gc + 0 = gc from rfl] at hk
    rw [hk]
    simp [hdone, pollEvents]
  | succ k ih =>
    obtain ⟨f, rfl⟩ : ∃ f, fuel = f + 1 := ⟨fuel - 1, by omega⟩
    obtain ⟨d0, h0, hc0⟩ := hcreating 0 (Nat.succ_pos k)
    rw [show gc + 0 = gc from rfl] at h0
    have hrec := ih (gc + 1) f
      (fun i hi => by
        obtain ⟨di, hdi, hci⟩ := hcreating (i + 1) (by omega)
        exact ⟨di, by rw [show gc + 1 + i = gc + (i + 1) from by omega]; exact hdi, hci⟩)
      (by rw [show gc + 1 + k = gc + (k + 1) from by omega]; exact hk)
      (by omega)
    unfold wait_for_cluster_to_provision get_cluster_details
    rw [h0]
    simp only [hc0, if_true, hrec]
    simp [pollEvents]
    omega

/-- C7 witness: one CREATING fetch followed by a RUNNING fetch makes the loop
stop after one sleep. -/
theorem wait_for_cluster_to_provision_terminates_witness :
    wait_for_cluster_to_provision envPoll meta0 0 2 =
      (some (.ok ()), 0 + 1 + 1, pollEvents 1) :=
  wait_for_cluster_to_provision_terminates envPoll meta0 0 1 2 dRunning
    (fun i hi => ⟨dCreating, by
      have hi0 : i = 0 := by omega
      subst hi0
      rfl, rfl⟩)
    rfl (by decide) (by decide)

/-- Helper: a file none of whose lines contains the marker has no first
marker line. -/
theorem firstMarkerLine_eq_none (lines : List String)
    (h : ∀ l ∈ lines, pyContains l "Found Web Interface" = false) :
    firstMarkerLine lines = none := by
  induction lines with
  | nil => rfl
  | cons l rest ih =>
    unfold firstMarkerLine
    rw [h l (List.mem_cons_self l rest)]
    simpa using ih (fun x hx => h x (List.mem_cons_of_mem l hx))

/-- Helper: when no log has a marker line, the scan opens every log and
returns `(none, none)` without further RPCs. -/
theorem scanLogs_no_marker (env : Env) (meta : ClusterMetadata) (gc : Nat)
    (logs : List String)
    (h : ∀ log ∈ logs, firstMarkerLine (env.fileLines log) = none) :
    scanLogs env meta gc logs = (.ok (none, none), gc, logs.map Event.openRPC) := by
  induction logs with
  | nil => rfl
  | cons log rest ih =>
    unfold scanLogs
    rw [h log (List.mem_cons_self log rest),
      ih (fun x hx => h x (List.mem_cons_of_mem log hx))]
    rfl

/-- Helper: when no listed startup log has a marker line,
`get_master_url_and_dashboard` returns `(none, none)`. -/
theorem get_master_url_and_dashboard_no_marker (env : Env)
    (meta : ClusterMetadata) (staging : Option String) (gc : Nat)
    (h : ∀ log ∈ startupLogs env staging, firstMarkerLine (env.fileLines log) = none) :
    get_master_url_and_dashboard env meta staging gc =
      (.ok (none, none), gc,
        .listRPC staging :: (startupLogs env staging).map Event.openRPC) := by
  unfold get_master_url_and_dashboard
  rw [scanLogs_no_marker env meta gc _ h]

/-- Helper: whenever the short-circuit is not engaged, `create_cluster`
issues the create RPC (its event trace contains `createRPC`). -/
theorem create_cluster_issues_create (env : Env) (st : MState) (fuel : Nat)
    (hmu : truthyStr st.cluster_metadata.master_url = false) :
    Event.createRPC ∈ (create_cluster env st fuel).2.2 := by
  cases hc : env.createResult with
  | error code =>
    by_cases h1 : code = 409
    · simp [create_cluster, hmu, hc, h1]
    · by_cases h2 : code = 403
      · simp [create_cluster, hmu, hc, h1, h2]
      · by_cases h3 : code = 501 <;> simp [create_cluster, hmu, hc, h1, h2, h3]
  | ok u =>
    rcases hgs : get_staging_location env st.cluster_metadata st.gc fuel with ⟨r, gc2, evs1⟩
    rcases r with _ | r2
    · simp [create_cluster, hmu, hc, hgs]
    · rcases r2 with e | staging
      · simp [create_cluster, hmu, hc, hgs]
      · rcases hgm : get_master_url_and_dashboard env st.cluster_metadata staging gc2
          with ⟨r3, gc3, evs2⟩
        rcases r3 with e | mu
        · simp [create_cluster, hmu, hc, hgs, hgm]
        · simp [create_cluster, hmu, hc, hgs, hgm]

/-- C9: when the create RPC succeeds but no startup-log line anywhere in the
object store contains "Found Web Interface", a successful `create_cluster`
run leaves both `master_url` and `dashboard` equal to `None`; consequently
the idempotent short-circuit does not engage and a subsequent
`create_cluster` call issues the create RPC again. -/
theorem create_cluster_no_marker_resets (env : Env) (st : MState) (fuel : Nat)
    (st2 : MState) (evs : List Event)
    (hmu : truthyStr st.cluster_metadata.master_url = false)
    (hcr : env.createResult = .ok ())
    (hnomark : ∀ dir, ∀ path ∈ env.listResult dir,
        ∀ l ∈ env.fileLines path, pyContains l "Found Web Interface" = false)
    (hrun : create_cluster env st fuel = (some (.ok ()), st2, evs)) :
    st2.cluster_metadata.master_url = none ∧
    st2.cluster_metadata.dashboard = none ∧
    ∀ fuel2, Event.createRPC ∈ (create_cluster env st2 fuel2).2.2 := by
  have hscan : ∀ staging gc,
      get_master_url_and_dashboard env st.cluster_metadata staging gc =
        (.ok (none, none), gc,
          .listRPC staging :: (startupLogs env staging).map Event.openRPC) := by
    intro staging gc
    apply get_master_url_and_dashboard_no_marker
    intro log hlog
    apply firstMarkerLine_eq_none
    intro l hl
    exact hnomark staging log (List.mem_of_mem_filter hlog) l hl
  rcases hgs : get_staging_location env st.cluster_metadata st.gc fuel with ⟨r, gc2, evs1⟩
  rcases r with _ | r2
  · have hproj := congrArg (fun t => t.1) hrun
    simp [create_cluster, hmu, hcr, hgs] at hproj
  · rcases r2 with e | staging
    · have hproj := congrArg (fun t => t.1) hrun
      simp [create_cluster, hmu, hcr, hgs] at hproj
    · have hproj := congrArg (fun t => t.2.1) hrun
      simp [create_cluster, hmu, hcr, hgs, hscan] at hproj
      refine ⟨?_, ?_, ?_⟩
      · rw [← hproj]
      · rw [← hproj]
      · intro fuel2
        apply create_cluster_issues_create
        rw [← hproj]
        rfl

/-- C9 witness: the concrete no-marker run leaves both endpoint fields
`None` and a second call issues the create RPC again. -/
theorem create_cluster_no_marker_resets_witness :
    stNoMark.cluster_metadata.master_url = none ∧
    stNoMark.cluster_metadata.dashboard = none ∧
    Event.createRPC ∈ (create_cluster envNoMark stNoMark 0).2.2 :=
  have h := create_cluster_no_marker_resets envNoMark st0 1 stNoMark evsNoMark
    (by decide) rfl
    (fun dir path hp l hl => by
      have hl1 : l = "no marker here\n" := List.mem_singleton.mp hl
      subst hl1
      decide)
    (by decide)
  ⟨h.1, h.2.1, h.2.2 0⟩
